import Mathlib

/-!
Verification of the dex-router exchange adapters (src/dex/abstract_dex.py,
src/dex/apex.py, src/dex/mufex.py) against their specification.

Modelling conventions:
* Python `float` and `decimal.Decimal` arithmetic is idealised as exact
  rational arithmetic (`ℚ`); decimal strings carry their numeric value.
* Python `dict` is modelled as an insertion-ordered association list with
  unique keys; assignment updates in place or appends, `del` removes the key.
* Timestamps (`time.time()`) are explicit `ℚ` parameters.
-/

/-- Python `d[k]` read for dicts, as an insertion-ordered association list. -/
def dictLookup {κ α : Type} [DecidableEq κ] : List (κ × α) → κ → Option α
  | [], _ => none
  | (k', v) :: rest, k => if k' = k then some v else dictLookup rest k

/-- Python `d[k] = v`: overwrite in place when `k` is present, else append. -/
def dictInsert {κ α : Type} [DecidableEq κ] : List (κ × α) → κ → α → List (κ × α)
  | [], k, v => [(k, v)]
  | (k', v') :: rest, k, v =>
    if k' = k then (k, v) :: rest else (k', v') :: dictInsert rest k v

/-- Python `del d[k]` (keys are unique, so removing the first occurrence). -/
def dictErase {κ α : Type} [DecidableEq κ] : List (κ × α) → κ → List (κ × α)
  | [], _ => []
  | (k', v') :: rest, k => if k' = k then rest else (k', v') :: dictErase rest k

/-- Python `int(x)` on a Decimal/float: truncation toward zero. -/
def pyInt (q : ℚ) : ℤ := if 0 ≤ q then ⌊q⌋ else ⌈q⌉

/-- mufex.py `round_size(size, ticker_size)`:
`Decimal(int(Decimal(size) / Decimal(ticker_size))) * Decimal(ticker_size)`. -/
def round_size (size ticker_size : ℚ) : ℚ :=
  let sizeNumber := size / ticker_size
  (pyInt sizeNumber : ℚ) * ticker_size

/-- Python `str.upper()` (symbols here are ASCII). -/
def pyUpper (s : String) : String := String.mk (s.data.map Char.toUpper)

/-- Python `str.capitalize()`: first character uppercased, the rest lowercased
(unlike `String.capitalize`, which leaves the tail unchanged). -/
def pyCapitalize (s : String) : String :=
  match s.data with
  | [] => ""
  | c :: rest => String.mk (c.toUpper :: rest.map Char.toLower)

/-- mufex.py `side_map = {'BUY': 'Sell', 'SELL': 'Buy'}`. -/
def side_map : List (String × String) := [("BUY", "Sell"), ("SELL", "Buy")]

/-- mufex.py `convert_side(side, reverse)`. -/
def convert_side (side : String) (reverse : Bool) : String :=
  let side := pyUpper side
  match dictLookup side_map side with
  | some mapped => if reverse then mapped else pyCapitalize side
  | none => "Invalid Side"

/-! ### Fill-event cache (`processed_orders`)

`{'symbol': {'order_id': timestamp, ...}, ...}` — a dict of dicts, keyed by
symbol then by order id, each order id mapping to its recording timestamp. -/

/-- Per-symbol map `order_id → timestamp`. -/
abbrev OrderMap := List (String × ℚ)

/-- `processed_orders`: `symbol → order_id → timestamp`. -/
abbrev FillCache := List (String × OrderMap)

/-- apex.py account-stream order payload (the fields `on_account_changed`
reads); `createdAt` is in milliseconds, as on the wire. -/
structure StreamOrder where
  orderId : String
  status : String
  symbol : String
  createdAt : ℚ
deriving Repr, DecidableEq

/-- One iteration of the loop in apex.py `on_account_changed`, at wall-clock
time `t` (`current_timestamp`): record the order id under its symbol when the
order was created less than 60 s ago and is not already recorded. -/
def processOrder (t : ℚ) (o : StreamOrder) (cache : FillCache) : FillCache :=
  if t - o.createdAt / 1000 < 60 then
    match dictLookup cache o.symbol with
    | none => dictInsert cache o.symbol [(o.orderId, t)]
    | some m =>
      match dictLookup m o.orderId with
      | none => dictInsert cache o.symbol (dictInsert m o.orderId t)
      | some _ => cache
  else cache

/-- apex.py `on_account_changed(message)` at wall-clock time `t`, over the
orders carried by the message. -/
def on_account_changed (t : ℚ) (orders : List StreamOrder) (cache : FillCache) :
    FillCache :=
  orders.foldl (fun c o => processOrder t o c) cache

/-- apex.py `cleanup_processed_orders(expiration_time)` at wall-clock time `t`
(and the identical `AbstractDex.__cleanup_processed_orders`): delete every
record with `t - timestamp > expiration_time`, then drop any symbol whose
per-symbol map became empty. -/
def cleanup_processed_orders (t expiration_time : ℚ) : FillCache → FillCache
  | [] => []
  | (symbol, m) :: rest =>
    let m' := m.filter fun p => !decide (t - p.2 > expiration_time)
    if m' = [] then cleanup_processed_orders t expiration_time rest
    else (symbol, m') :: cleanup_processed_orders t expiration_time rest

/-- abstract_dex.py `AbstractDex.clear_filled_order(symbol, order_id)`, acting
on the cache it mutates (`self.processed_orders`). -/
def clear_filled_order_cache (cache : FillCache) (symbol order_id : String) :
    FillCache :=
  match dictLookup cache symbol with
  | none => cache
  | some m =>
    match dictLookup m order_id with
    | none => cache
    | some _ =>
      let m' := dictErase m order_id
      let cache' := dictInsert cache symbol m'
      if m' = [] then dictErase cache' symbol else cache'

/-- The two distinct stores an `ApexDex` instance carries: the instance dict
`self.processed_orders` initialised by `AbstractDex.__init__`, and the
module-level global `processed_orders` of apex.py that the websocket callback
`on_account_changed` writes and `ApexDex.get_filled_orders` reads. -/
structure ApexState where
  selfProcessedOrders : FillCache
  globalProcessedOrders : FillCache
deriving Repr, DecidableEq

/-- `AbstractDex.clear_filled_order` as invoked on an `ApexDex` instance: it
operates on `self.processed_orders` only. -/
def ApexDex_clear_filled_order (s : ApexState) (symbol order_id : String) :
    ApexState :=
  { s with selfProcessedOrders :=
      clear_filled_order_cache s.selfProcessedOrders symbol order_id }

/-- apex.py `ApexDex.get_filled_orders(symbol)`: reads the module-level
`processed_orders` and returns the list of recorded order ids. -/
def ApexDex_get_filled_orders (s : ApexState) (symbol : String) : List String :=
  ((dictLookup s.globalProcessedOrders symbol).getD []).map Prod.fst

/-! ### Instant-fill price padding -/

/-- abstract_dex.py `TICK_PRICE_MULTIPLIER = 0.1`. -/
def TICK_PRICE_MULTIPLIER : ℚ := 1/10

/-- abstract_dex.py `AbstractDex.modify_price_for_instant_fill`: multiply the
price by `1 + TICK_PRICE_MULTIPLIER` for a BUY, by `1 - TICK_PRICE_MULTIPLIER`
otherwise (the `symbol` argument is unused by this version). -/
def AbstractDex_modify_price_for_instant_fill (side : String) (price : ℚ) : ℚ :=
  if side = "BUY" then price * (1 + TICK_PRICE_MULTIPLIER)
  else price * (1 - TICK_PRICE_MULTIPLIER)

/-- apex.py `TICK_SIZE_MULTIPLIER = 10`. -/
def TICK_SIZE_MULTIPLIER : ℚ := 10

/-- apex.py `ApexDex.modify_price_for_instant_fill`: add (BUY) or subtract
(otherwise) `tickSize * TICK_SIZE_MULTIPLIER`. `tickSize` stands for the
value the method looks up in `self.configs` for the symbol. -/
def ApexDex_modify_price_for_instant_fill (tickSize : ℚ) (side : String)
    (price : ℚ) : ℚ :=
  if side = "BUY" then price + tickSize * TICK_SIZE_MULTIPLIER
  else price - tickSize * TICK_SIZE_MULTIPLIER

/-! ### apex.py `ApexDex.close_all_positions` -/

/-- One entry of `account_data['data']['openPositions']` (the fields the
method reads); `size` carries the numeric value of the decimal string. -/
structure ApexPosition where
  symbol : String
  side : String
  size : ℚ
deriving Repr, DecidableEq

/-- One call the loop makes to `self.create_order(symbol, size,
opposite_order_side, price)`. -/
structure SubmittedOrder where
  symbol : String
  size : ℚ
  side : String
  price : Option ℚ
deriving Repr, DecidableEq

/-- The first loop of `close_all_positions`: build `position_sizes`, a dict
keyed by `f"{symbol}_{side}"` (modelled as the pair, symbols and sides contain
no underscore) holding the size of each position with nonzero size. -/
def apex_position_sizes (positions : List ApexPosition) :
    List ((String × String) × ℚ) :=
  positions.foldl
    (fun acc p =>
      if p.size ≠ 0 then dictInsert acc (p.symbol, p.side) p.size else acc)
    []

/-- apex.py `ApexDex.get_ticker` price lookup: the cached last price for the
symbol with hyphens removed, when the ticker stream has recorded one. -/
def ApexDex_get_ticker_price (latest_price_info : List (String × ℚ))
    (symbol : String) : Option ℚ :=
  dictLookup latest_price_info (symbol.replace "-" "")

/-- The second loop of `close_all_positions`. `opp` models the Python local
variable `opposite_order_side`: it is only assigned under the
`close_symbol is None or symbol == close_symbol` test, yet `create_order` is
called on every iteration; using it before any assignment raises `NameError`,
which the surrounding `try` turns into an error response. -/
def apex_close_loop (close_symbol : Option String)
    (latest_price_info : List (String × ℚ)) :
    List ((String × String) × ℚ) → Option String → List SubmittedOrder →
    Except String (List SubmittedOrder)
  | [], _, acc => .ok acc.reverse
  | ((symbol, side), size) :: rest, opp, acc =>
    let opp :=
      if close_symbol = none ∨ some symbol = close_symbol then
        some (if side = "LONG" then "SELL" else "BUY")
      else opp
    match opp with
    | none => .error "name opposite_order_side is not defined"
    | some o =>
      let price := ApexDex_get_ticker_price latest_price_info symbol
      apex_close_loop close_symbol latest_price_info rest (some o)
        (⟨symbol, size, o, price⟩ :: acc)

/-- apex.py `ApexDex.close_all_positions(close_symbol)`: `.ok` carries the
orders handed to `create_order` in call order, `.error` the message of an
exception caught by the `try` block (returned as a 500 response). -/
def ApexDex_close_all_positions (close_symbol : Option String)
    (latest_price_info : List (String × ℚ)) (positions : List ApexPosition) :
    Except String (List SubmittedOrder) :=
  apex_close_loop close_symbol latest_price_info
    (apex_position_sizes positions) none []

/-! ### mufex.py request signing -/

/-- mufex.py `MufexDex.__generate_signature(query_string, json_body_string,
recv_window)`: the HMAC-SHA256 primitive (`hmac.new(secret, msg,
sha256).hexdigest()`) is abstracted as `hmacSha256Hex secret msg`; `nowMs`
is `int(time.time() * 1000)`. Returns `(signature, timestamp, recv_window)`. -/
def MufexDex_generate_signature (hmacSha256Hex : String → String → String)
    (api_secret api_key : String) (nowMs : ℤ)
    (query_string json_body_string : String) (recv_window : ℤ) :
    String × ℤ × ℤ :=
  let timestamp := nowMs
  let prehash := s!"{timestamp}{api_key}{recv_window}{query_string}{json_body_string}"
  (hmacSha256Hex api_secret prehash, timestamp, recv_window)

/-- The call shape used by `__create_order_internal` for the POST:
`self.__generate_signature(json_body_string=...)`, leaving `query_string`
at its default `''` and `recv_window` at its default `5000`. -/
def MufexDex_generate_signature_body (hmacSha256Hex : String → String → String)
    (api_secret api_key : String) (nowMs : ℤ) (json_body_string : String) :
    String × ℤ × ℤ :=
  MufexDex_generate_signature hmacSha256Hex api_secret api_key nowMs
    "" json_body_string 5000

/-- The call shape used by `__get_positions` and the activity-orders poll:
`self.__generate_signature(urllib.parse.urlencode(params))`, leaving
`json_body_string` at its default `''` and `recv_window` at `5000`. -/
def MufexDex_generate_signature_query (hmacSha256Hex : String → String → String)
    (api_secret api_key : String) (nowMs : ℤ) (query_string : String) :
    String × ℤ × ℤ :=
  MufexDex_generate_signature hmacSha256Hex api_secret api_key nowMs
    query_string "" 5000

/-- The message the spec says gets signed, built from the spec's words: the
exact concatenation `timestamp || apiKey || recvWindow || queryString ||
jsonBody`, omitted parts being empty strings. -/
def signedMessage_spec (apiKey : String) (timestamp recvWindow : ℤ)
    (queryString jsonBody : String) : String :=
  toString timestamp ++ apiKey ++ toString recvWindow ++ queryString ++ jsonBody

/-! ### mufex.py response handling (`get_ticker`, `create_order`)

These methods index into the decoded JSON of an exchange response with no
surrounding `try`/`except`; a `KeyError`, `IndexError`, `TypeError` or
`ZeroDivisionError` raised there propagates out of the adapter. `Except`'s
error track models such an uncaught exception, `.ok` a returned response. -/

/-- Decoded JSON value, as handed back by `response.json()`; decimal strings
from the exchange are carried as their numeric value (`num`). -/
inductive PyVal
  | str (s : String)
  | num (q : ℚ)
  | arr (l : List PyVal)
  | obj (l : List (String × PyVal))

/-- The Python exceptions the unprotected response handling can raise. -/
inductive PyExc
  | keyError (k : String)
  | indexError
  | typeError
  | zeroDivisionError
deriving Repr, DecidableEq

/-- Python subscript `v[k]` on a decoded JSON object: `KeyError` when the key
is missing, `TypeError` when `v` is not a dict. -/
def PyVal.getItem : PyVal → String → Except PyExc PyVal
  | .obj l, k =>
    match dictLookup l k with
    | some v => .ok v
    | none => .error (.keyError k)
  | _, _ => .error .typeError

/-- Python subscript `v[i]` on a decoded JSON array: `IndexError` when out of
range, `TypeError` when `v` is not a list. -/
def PyVal.index : PyVal → ℕ → Except PyExc PyVal
  | .arr l, i =>
    match l.get? i with
    | some v => .ok v
    | none => .error .indexError
  | _, _ => .error .typeError

/-- Python `float(x)` on a response field (a decimal string, carried as its
numeric value): `TypeError` on a non-scalar. -/
def pyFloat : PyVal → Except PyExc ℚ
  | .num q => .ok q
  | _ => .error .typeError

/-- Python `a / b` on floats: `ZeroDivisionError` when `b = 0`. -/
def pyDiv (a b : ℚ) : Except PyExc ℚ :=
  if b = 0 then .error .zeroDivisionError else .ok (a / b)

/-- Python `x == 'lit'` for a decoded JSON value. -/
def PyVal.eqStr : PyVal → String → Bool
  | .str s, t => s = t
  | _, _ => false

/-- mufex.py `ApiResponse`: `data` is set on transport success, `error` on a
caught transport failure (`is_error` tests `error`). -/
structure ApiResponse where
  data : Option PyVal
  error : Option String

/-- An HTTP response returned to the router: status code and JSON body. -/
structure HttpResult where
  status : ℕ
  body : List (String × PyVal)

/-- mufex.py `MufexDex.get_ticker(symbol)`, from the `ApiResponse` the
transport returned for the tickers request: a transport error becomes a 500
response, but the field accesses `data["data"]["list"][0]["lastPrice"]` run
outside any `try` and their exceptions propagate (`Except.error`). -/
def MufexDex_get_ticker (symbol : String) (response : ApiResponse) :
    Except PyExc HttpResult := do
  match response.error with
  | some e => return ⟨500, [("message", .str e)]⟩
  | none =>
    match response.data with
    | none => throw .typeError
    | some data => do
      let price ← (← (← (← data.getItem "data").getItem "list").index 0).getItem "lastPrice"
      return ⟨200, [("symbol", .str symbol), ("price", price)]⟩

/-- mufex.py `MufexDex.create_order` after `__create_order_internal` returned
`response`: an `ApiResponse` error becomes a 500 response; otherwise the
accesses `data["data"]["list"][0][...]` and the filled-price division
`float(cumExecValue) / float(cumExecQty)` run outside any `try`, so a missing
field or a zero filled size raises and propagates (`Except.error`). -/
def MufexDex_create_order (response : ApiResponse) : Except PyExc HttpResult := do
  match response.error with
  | some e => return ⟨500, [("message", .str e)]⟩
  | none =>
    match response.data with
    | none => throw .typeError
    | some data => do
      let entry ← (← (← data.getItem "data").getItem "list").index 0
      if (← entry.getItem "orderStatus").eqStr "Filled" then
        let size ← entry.getItem "cumExecQty"
        let val ← entry.getItem "cumExecValue"
        let fee ← entry.getItem "cumExecFee"
        let price_float ← pyDiv (← pyFloat val) (← pyFloat size)
        return ⟨200, [("price", .num price_float), ("size", size), ("fee", fee)]⟩
      else
        return ⟨200, []⟩

/-! ### mufex.py order body -/

/-- The `json_body` POSTed to `/private/v1/trade/create` (the fields set by
`__create_order_internal`); `qty` is `str(rounded_size)`, carried as its
numeric value. -/
structure MufexOrderBody where
  symbol : String
  side : String
  positionIdx : ℕ
  orderType : String
  qty : ℚ
  timeInForce : String
deriving Repr, DecidableEq

/-- mufex.py `__create_order_internal` body construction, given the `qtyStep`
read from a successful instruments response: the body is built and submitted
for every `side` value — `convert_side` cannot raise, so nothing rejects an
unrecognised side before the POST. -/
def mufex_create_order_body (symbol : String) (size qty_step : ℚ)
    (side : String) (reverse : Bool) : MufexOrderBody :=
  { symbol := symbol.replace "-" ""
    side := convert_side side reverse
    positionIdx := 0
    orderType := "Market"
    qty := round_size size qty_step
    timeInForce := "ImmediateOrCancel" }


/-! ## Association-list lemmas -/

theorem dictLookup_cons {κ α : Type} [DecidableEq κ] (k' : κ) (v' : α)
    (rest : List (κ × α)) (k : κ) :
    dictLookup ((k', v') :: rest) k =
      if k' = k then some v' else dictLookup rest k := rfl

theorem dictLookup_dictInsert_self {κ α : Type} [DecidableEq κ]
    (m : List (κ × α)) (k : κ) (v : α) :
    dictLookup (dictInsert m k v) k = some v := by
  induction m with
  | nil => simp [dictInsert, dictLookup]
  | cons hd tl ih =>
    obtain ⟨k', v'⟩ := hd
    by_cases hk : k' = k
    · simp [dictInsert, hk, dictLookup]
    · simp [dictInsert, hk, dictLookup_cons, ih]

theorem dictLookup_filter {κ α : Type} [DecidableEq κ] (p : κ × α → Bool)
    (m : List (κ × α)) (k : κ) (v : α)
    (h : dictLookup (m.filter p) k = some v) : p (k, v) = true := by
  induction m with
  | nil => simp [dictLookup] at h
  | cons hd tl ih =>
    obtain ⟨k', v'⟩ := hd
    by_cases hp : p (k', v') = true
    · rw [List.filter_cons_of_pos hp, dictLookup_cons] at h
      by_cases hk : k' = k
      · rw [if_pos hk] at h
        cases h
        subst hk
        exact hp
      · rw [if_neg hk] at h
        exact ih h
    · rw [List.filter_cons_of_neg (by simpa using hp)] at h
      exact ih h

theorem dictLookup_filter_keep {κ α : Type} [DecidableEq κ] (p : κ × α → Bool)
    (m : List (κ × α)) (k : κ) (v : α)
    (hv : dictLookup m k = some v) (hp : p (k, v) = true) :
    dictLookup (m.filter p) k = some v := by
  induction m with
  | nil => simp [dictLookup] at hv
  | cons hd tl ih =>
    obtain ⟨k', v'⟩ := hd
    by_cases hk : k' = k
    · subst hk
      rw [dictLookup_cons, if_pos rfl] at hv
      cases hv
      rw [List.filter_cons_of_pos hp, dictLookup_cons, if_pos rfl]
    · rw [dictLookup_cons, if_neg hk] at hv
      by_cases hph : p (k', v') = true
      · rw [List.filter_cons_of_pos hph, dictLookup_cons, if_neg hk]
        exact ih hv
      · rw [List.filter_cons_of_neg (by simpa using hph)]
        exact ih hv

theorem dictLookup_ne_nil {κ α : Type} [DecidableEq κ]
    {m : List (κ × α)} {k : κ} {v : α}
    (h : dictLookup m k = some v) : m ≠ [] := by
  intro he
  subst he
  simp [dictLookup] at h

/-! ## Claims -/

/-- Evaluation of mufex.py `round_size` at a negative size: Python `int()`
truncates toward zero, so `round_size(-3/2, 1)` is `-1`, above the input. -/
theorem round_size_neg_eval : round_size (-3/2) 1 = -1 := by
  norm_num [round_size, pyInt]
  rw [Int.ceil_neg]
  norm_num

/-- C3, counterexample: as stated over all sizes the claim fails — for
`size = -3/2`, `stepSize = 1` the rounded size is `-1`, which is not `≤ size`
(truncation toward zero rounds negative sizes up). -/
theorem round_size_le_counterexample :
    ¬ round_size (-3/2) 1 ≤ -3/2 := by
  rw [round_size_neg_eval]
  norm_num

/-- C3, amended: for every nonnegative `size` and positive `stepSize`, the
rounded size computed by `round_size` satisfies `roundedSize ≤ size` and is
an exact integer multiple of `stepSize` (truncation toward zero, which on
this domain is the floor, never rounds to nearest). -/
theorem round_size_truncates (size stepSize : ℚ)
    (hsize : 0 ≤ size) (hstep : 0 < stepSize) :
    round_size size stepSize ≤ size ∧
      ∃ k : ℤ, round_size size stepSize = (k : ℚ) * stepSize := by
  have hq : 0 ≤ size / stepSize := div_nonneg hsize hstep.le
  have hpy : pyInt (size / stepSize) = ⌊size / stepSize⌋ := if_pos hq
  refine ⟨?_, pyInt (size / stepSize), rfl⟩
  show (pyInt (size / stepSize) : ℚ) * stepSize ≤ size
  rw [hpy]
  calc (⌊size / stepSize⌋ : ℚ) * stepSize
      ≤ size / stepSize * stepSize :=
        mul_le_mul_of_nonneg_right (Int.floor_le _) hstep.le
    _ = size := div_mul_cancel₀ _ hstep.ne'

theorem round_size_truncates_witness :
    (0:ℚ) ≤ 7/2 ∧ (0:ℚ) < 1 ∧
      (round_size (7/2) 1 ≤ 7/2 ∧
        ∃ k : ℤ, round_size (7/2) 1 = (k : ℚ) * 1) :=
  ⟨by norm_num, by norm_num, round_size_truncates (7/2) 1 (by norm_num) one_pos⟩

/-- C4: for every nonnegative price and tick size, both implementations of the
instant-fill adjustment move the price in the padding direction — for BUY the
adjusted price is `≥` the input (rounded) price, for SELL it is `≤`. -/
theorem modify_price_padding_direction (price tickSize : ℚ)
    (hp : 0 ≤ price) (ht : 0 ≤ tickSize) :
    (price ≤ AbstractDex_modify_price_for_instant_fill "BUY" price ∧
      AbstractDex_modify_price_for_instant_fill "SELL" price ≤ price) ∧
    (price ≤ ApexDex_modify_price_for_instant_fill tickSize "BUY" price ∧
      ApexDex_modify_price_for_instant_fill tickSize "SELL" price ≤ price) := by
  refine ⟨⟨?_, ?_⟩, ?_, ?_⟩ <;>
    simp [AbstractDex_modify_price_for_instant_fill,
      ApexDex_modify_price_for_instant_fill,
      TICK_PRICE_MULTIPLIER, TICK_SIZE_MULTIPLIER] <;>
    nlinarith

theorem modify_price_padding_direction_witness :
    (0:ℚ) ≤ 27000 ∧ (0:ℚ) ≤ 1/2 ∧
      (((27000:ℚ) ≤ AbstractDex_modify_price_for_instant_fill "BUY" 27000 ∧
        AbstractDex_modify_price_for_instant_fill "SELL" 27000 ≤ 27000) ∧
       ((27000:ℚ) ≤ ApexDex_modify_price_for_instant_fill (1/2) "BUY" 27000 ∧
        ApexDex_modify_price_for_instant_fill (1/2) "SELL" 27000 ≤ 27000)) :=
  ⟨by norm_num, by norm_num,
    modify_price_padding_direction 27000 (1/2) (by norm_num) (by norm_num)⟩

/-- C5, counterexample: with tick size `0.5` the padding the implementation
applies to a BUY is `tickSize * TICK_SIZE_MULTIPLIER = 0.5 * 10 = 5.0`, not
`2.5`: at rounded price `27000` the submitted price is `27005`. -/
theorem apex_padding_counterexample :
    ApexDex_modify_price_for_instant_fill (1/2) "BUY" 27000 = 27005 ∧
      ApexDex_modify_price_for_instant_fill (1/2) "BUY" 27000 ≠ 27000 + 5/2 := by
  norm_num [ApexDex_modify_price_for_instant_fill, TICK_SIZE_MULTIPLIER]

/-- C5, amended: `create_order("BTC-USDC", "0.01", "BUY")` on a symbol whose
tick size is `0.5` submits an adjusted price equal to `roundedPrice + 5.0` —
a padding of 10 ticks, `TICK_SIZE_MULTIPLIER = 10`. -/
theorem apex_padding_ten_ticks (roundedPrice : ℚ) :
    ApexDex_modify_price_for_instant_fill (1/2) "BUY" roundedPrice =
      roundedPrice + 5 := by
  norm_num [ApexDex_modify_price_for_instant_fill, TICK_SIZE_MULTIPLIER]

/-- C9: `__generate_signature` signs exactly the concatenation
`timestamp || apiKey || recvWindow || queryString || jsonBody` (in that
order) with the HMAC-SHA256 primitive over the API secret, and returns that
signature together with the timestamp and recvWindow it used; the two call
shapes the adapter uses leave the omitted part as the empty string and the
recvWindow at its default `5000`. -/
theorem generate_signature_signs_concatenation
    (hmacSha256Hex : String → String → String)
    (api_secret api_key : String) (nowMs recv_window : ℤ)
    (query_string json_body_string : String) :
    MufexDex_generate_signature hmacSha256Hex api_secret api_key nowMs
        query_string json_body_string recv_window =
      (hmacSha256Hex api_secret
        (signedMessage_spec api_key nowMs recv_window query_string
          json_body_string), nowMs, recv_window) ∧
    MufexDex_generate_signature_body hmacSha256Hex api_secret api_key nowMs
        json_body_string =
      (hmacSha256Hex api_secret
        (signedMessage_spec api_key nowMs 5000 "" json_body_string),
        nowMs, 5000) ∧
    MufexDex_generate_signature_query hmacSha256Hex api_secret api_key nowMs
        query_string =
      (hmacSha256Hex api_secret
        (signedMessage_spec api_key nowMs 5000 query_string ""),
        nowMs, 5000) := by
  refine ⟨?_, ?_, ?_⟩ <;>
    simp [MufexDex_generate_signature, MufexDex_generate_signature_body,
      MufexDex_generate_signature_query, signedMessage_spec, toString,
      String.append_assoc]

/-- C10: `convert_side` is total — inputs uppercasing to `'BUY'`/`'SELL'` map
to `'Buy'`/`'Sell'` (reversed when `reverse` is set), and every other input
yields the string `'Invalid Side'` rather than an exception; the order body
built by `__create_order_internal` carries `convert_side`'s result verbatim,
so an unrecognised side is submitted to the exchange as the literal
`'Invalid Side'` instead of being rejected locally. -/
theorem convert_side_total (side : String) (reverse : Bool)
    (symbol : String) (size qty_step : ℚ) :
    (pyUpper side = "BUY" →
      convert_side side false = "Buy" ∧ convert_side side true = "Sell") ∧
    (pyUpper side = "SELL" →
      convert_side side false = "Sell" ∧ convert_side side true = "Buy") ∧
    (pyUpper side ≠ "BUY" → pyUpper side ≠ "SELL" →
      convert_side side reverse = "Invalid Side") ∧
    (mufex_create_order_body symbol size qty_step side reverse).side =
      convert_side side reverse := by
  refine ⟨fun h => ?_, fun h => ?_, fun h1 h2 => ?_, rfl⟩
  · constructor <;> simp [convert_side, h, side_map, dictLookup, pyCapitalize]
  · constructor <;> simp [convert_side, h, side_map, dictLookup, pyCapitalize]
  · have h1' : "BUY" ≠ pyUpper side := fun he => h1 he.symm
    have h2' : "SELL" ≠ pyUpper side := fun he => h2 he.symm
    simp [convert_side, side_map, dictLookup, h1', h2']

theorem convert_side_total_witness :
    convert_side "hold" true = "Invalid Side" ∧
      (mufex_create_order_body "BTC-USDC" 1 1 "hold" true).side =
        convert_side "hold" true :=
  ⟨(convert_side_total "hold" true "BTC-USDC" 1 1).2.2.1
      (by decide) (by decide),
    (convert_side_total "hold" true "BTC-USDC" 1 1).2.2.2⟩

/-- The position snapshot for C1: a BTC-USDC long of size 1 and an ETH-USDC
short of size 2, with `close_symbol = "BTC-USDC"`. -/
def c1_positions : List ApexPosition :=
  [⟨"BTC-USDC", "LONG", 1⟩, ⟨"ETH-USDC", "SHORT", 2⟩]

/-- C1, failing evaluation: with `close_symbol = "BTC-USDC"`,
`ApexDex.close_all_positions` submits an order for the ETH-USDC position as
well — the symbol test only guards the assignment of `opposite_order_side`,
not the `create_order` call — and that order carries the side left over from
the BTC iteration (`SELL`), not the opposite of the SHORT position (`BUY`). -/
theorem apex_close_all_ignores_symbol_filter :
    ApexDex_close_all_positions (some "BTC-USDC") [] c1_positions =
      .ok [⟨"BTC-USDC", 1, "SELL", none⟩, ⟨"ETH-USDC", 2, "SELL", none⟩] := by
  rfl

/-- The state for C2: the module-level cache read by `get_filled_orders`
holds order `123` under `BTC-USDC`; the instance cache is empty (nothing in
apex.py ever writes `self.processed_orders`). -/
def c2_state : ApexState := ⟨[], [("BTC-USDC", [("123", 0)])]⟩

/-- C2, failing evaluation: `clear_filled_order("BTC-USDC", "123")` mutates
the `AbstractDex` instance dict `self.processed_orders`, while
`ApexDex.get_filled_orders` reads the apex.py module-level `processed_orders`
— so after clearing, order `123` is still returned. -/
theorem clear_filled_order_does_not_evict :
    ApexDex_get_filled_orders
      (ApexDex_clear_filled_order c2_state "BTC-USDC" "123") "BTC-USDC" =
      ["123"] := by
  rfl

/-- After an in-window delivery, the (symbol, orderId) key of the delivered
order is recorded in the cache `processOrder` returns. -/
theorem processOrder_records (t : ℚ) (o : StreamOrder) (c : FillCache)
    (h : t - o.createdAt / 1000 < 60) :
    ∃ m ts, dictLookup (processOrder t o c) o.symbol = some m ∧
      dictLookup m o.orderId = some ts := by
  unfold processOrder
  rw [if_pos h]
  split
  next hc =>
    refine ⟨[(o.orderId, t)], t, dictLookup_dictInsert_self _ _ _, ?_⟩
    simp [dictLookup]
  next m hc =>
    split
    next hm =>
      exact ⟨dictInsert m o.orderId t, t, dictLookup_dictInsert_self _ _ _,
        dictLookup_dictInsert_self _ _ _⟩
    next ts hm => exact ⟨m, ts, hc, hm⟩

/-- C6: delivering the same account-stream fill event twice (the second
arrival no earlier than the first) leaves exactly the state of the first
delivery — if the record is already present the second arrival is a no-op,
and the stored timestamp is unchanged. -/
theorem fill_ingestion_idempotent (t1 t2 : ℚ) (o : StreamOrder)
    (c : FillCache) (h : t1 ≤ t2) :
    on_account_changed t2 [o] (on_account_changed t1 [o] c) =
      on_account_changed t1 [o] c := by
  show processOrder t2 o (processOrder t1 o c) = processOrder t1 o c
  by_cases h1 : t1 - o.createdAt / 1000 < 60
  · obtain ⟨m, ts, hm, hts⟩ := processOrder_records t1 o c h1
    generalize hg : processOrder t1 o c = c1 at hm ⊢
    by_cases h2 : t2 - o.createdAt / 1000 < 60
    · simp [processOrder, h2, hm, hts]
    · simp [processOrder, h2]
  · have h2 : ¬ t2 - o.createdAt / 1000 < 60 := fun hlt => h1 (by linarith)
    simp [processOrder, h1, h2]

theorem fill_ingestion_idempotent_witness :
    (0:ℚ) ≤ 1 ∧
      on_account_changed 1 [⟨"123", "FILLED", "BTCUSDC", 0⟩]
          (on_account_changed 0 [⟨"123", "FILLED", "BTCUSDC", 0⟩] []) =
        on_account_changed 0 [⟨"123", "FILLED", "BTCUSDC", 0⟩] [] :=
  ⟨by norm_num,
    fill_ingestion_idempotent 0 1 ⟨"123", "FILLED", "BTCUSDC", 0⟩ []
      (by norm_num)⟩
/-- The sweep predicate holds exactly of records within the window. -/
theorem sweep_keep_iff (t E ts : ℚ) :
    (!decide (t - ts > E)) = true ↔ t - ts ≤ E := by
  simp [not_lt]

/-- C7: one sweep run at time `t` with expiration window `E` (i) leaves no
record whose timestamp is older than `t - E` — anything still present is
within the window, (ii) keeps, unmoved, every record still within the window,
and (iii) leaves no symbol key mapping to an empty per-symbol map. -/
theorem cleanup_sweep_correct (t E : ℚ) (cache : FillCache)
    (symbol order_id : String) :
    (∀ m ts, dictLookup (cleanup_processed_orders t E cache) symbol = some m →
      dictLookup m order_id = some ts → t - ts ≤ E) ∧
    (∀ m ts, dictLookup cache symbol = some m →
      dictLookup m order_id = some ts → t - ts ≤ E →
      ∃ m', dictLookup (cleanup_processed_orders t E cache) symbol = some m' ∧
        dictLookup m' order_id = some ts) ∧
    (∀ m, dictLookup (cleanup_processed_orders t E cache) symbol = some m →
      m ≠ []) := by
  induction cache with
  | nil => simp [cleanup_processed_orders, dictLookup]
  | cons hd rest ih =>
    obtain ⟨s, m0⟩ := hd
    obtain ⟨ih1, ih2, ih3⟩ := ih
    by_cases hemp : m0.filter (fun p => !decide (t - p.2 > E)) = []
    · rw [show cleanup_processed_orders t E ((s, m0) :: rest) =
          cleanup_processed_orders t E rest by
        simp [cleanup_processed_orders, hemp]]
      refine ⟨ih1, ?_, ih3⟩
      intro m ts hm hts hwin
      rw [dictLookup_cons] at hm
      by_cases hs : s = symbol
      · rw [if_pos hs] at hm
        cases hm
        have hb : (!decide (t - ts > E)) = true := (sweep_keep_iff t E ts).mpr hwin
        have hkeep : dictLookup (m0.filter fun p => !decide (t - p.2 > E))
            order_id = some ts :=
          dictLookup_filter_keep _ _ _ _ hts hb
        rw [hemp] at hkeep
        simp [dictLookup] at hkeep
      · rw [if_neg hs] at hm
        exact ih2 m ts hm hts hwin
    · rw [show cleanup_processed_orders t E ((s, m0) :: rest) =
          (s, m0.filter fun p => !decide (t - p.2 > E)) ::
            cleanup_processed_orders t E rest by
        simp [cleanup_processed_orders, hemp]]
      refine ⟨?_, ?_, ?_⟩
      · intro m ts hm hts
        rw [dictLookup_cons] at hm
        by_cases hs : s = symbol
        · rw [if_pos hs] at hm
          cases hm
          have hb := dictLookup_filter _ _ _ _ hts
          exact (sweep_keep_iff t E ts).mp hb
        · rw [if_neg hs] at hm
          exact ih1 m ts hm hts
      · intro m ts hm hts hwin
        rw [dictLookup_cons] at hm
        by_cases hs : s = symbol
        · rw [if_pos hs] at hm
          cases hm
          refine ⟨m0.filter fun p => !decide (t - p.2 > E), ?_, ?_⟩
          · rw [dictLookup_cons, if_pos hs]
          · exact dictLookup_filter_keep _ _ _ _ hts
              ((sweep_keep_iff t E ts).mpr hwin)
        · rw [if_neg hs] at hm
          obtain ⟨m', hm', hts'⟩ := ih2 m ts hm hts hwin
          exact ⟨m', by rw [dictLookup_cons, if_neg hs]; exact hm', hts'⟩
      · intro m hm
        rw [dictLookup_cons] at hm
        by_cases hs : s = symbol
        · rw [if_pos hs] at hm
          cases hm
          exact hemp
        · rw [if_neg hs] at hm
          exact ih3 m hm

theorem cleanup_sweep_correct_witness :
    ∃ m', dictLookup
        (cleanup_processed_orders 100 10 [("BTC-USDC", [("123", (95:ℚ))])])
        "BTC-USDC" = some m' ∧ dictLookup m' "123" = some (95:ℚ) :=
  (cleanup_sweep_correct 100 10 [("BTC-USDC", [("123", (95:ℚ))])]
      "BTC-USDC" "123").2.1 [("123", (95:ℚ))] 95 rfl rfl (by norm_num)

/-- The C8 failing input for `create_order`: `__create_order_internal`
succeeded and the activity-orders poll reports the order `Filled` with
`cumExecQty` zero. -/
def c8_filled_zero_response : ApiResponse :=
  ⟨some (.obj [("code", .num 0),
    ("data", .obj [("list", .arr [.obj [("orderStatus", .str "Filled"),
      ("cumExecQty", .num 0), ("cumExecValue", .num 5),
      ("cumExecFee", .num 0)]])])]), none⟩

/-- The C8 failing input for `get_ticker`: a transport-level success whose
payload lacks the expected `lastPrice` field. -/
def c8_ticker_missing_field_response : ApiResponse :=
  ⟨some (.obj [("code", .num 0),
    ("data", .obj [("list", .arr [.obj [("symbol", .str "BTCUSDC")]])])]),
    none⟩

/-- C8, failing evaluation: `MufexDex.create_order` and `MufexDex.get_ticker`
do not catch failures occurring after the transport call — a zero filled size
makes the filled-price division raise `ZeroDivisionError`, and a missing
`lastPrice` field raises `KeyError`; both exceptions propagate out of the
adapter instead of becoming a caller-visible error message. -/
theorem mufex_uncaught_exceptions :
    MufexDex_create_order c8_filled_zero_response =
        .error .zeroDivisionError ∧
      MufexDex_get_ticker "BTC-USDC" c8_ticker_missing_field_response =
        .error (.keyError "lastPrice") := by
  constructor <;> rfl
